import Mathlib

/-!
Verification development for the `fuse-provider-example` DRS service.

The embedding below models the HTTP handlers of `src/main.py`
(`service_info`, `objects`, `post_objects`, `get_objects`, and the
access-path POST handler, here `post_objects_access` since Lean forbids
the duplicate name `post_objects`) as total Lean functions returning
`Except DrsError β`: a handler that returns a JSON body yields
`Except.ok`, and the typed DRS errors of the specification
(`NotFoundError`, `UnauthorizedError`, `CyclicBundleError`) are the
`Except.error` cases.  The pydantic models `ExampleMetadata`,
`ProviderExampleObject` and `Passports` are imported in `src/main.py`
from `fuse.models.Objects`, which is not part of the source tree, and
`service_info.json` is likewise absent; those are modelled from the
specification, as marked on each of their definitions.
-/

set_option linter.unusedVariables false

namespace FuseProviderExample

/-- The typed errors of the DRS specification: `NotFoundError` (HTTP 404),
`UnauthorizedError` (HTTP 401) and `CyclicBundleError` (HTTP 500). -/
inductive DrsError where
  | notFound
  | unauthorized
  | cyclicBundle
deriving DecidableEq, Repr

/-- Equality of handler outcomes is decidable, so concrete handler calls
can be evaluated inside proofs by `decide`. -/
instance {ε α : Type} [DecidableEq ε] [DecidableEq α] : DecidableEq (Except ε α)
  | Except.ok x, Except.ok y =>
    if h : x = y then isTrue (by rw [h])
    else isFalse (fun hh => h (Except.ok.inj hh))
  | Except.ok x, Except.error e => isFalse (fun hh => Except.noConfusion hh)
  | Except.error e, Except.ok y => isFalse (fun hh => Except.noConfusion hh)
  | Except.error e, Except.error f =>
    if h : e = f then isTrue (by rw [h])
    else isFalse (fun hh => h (Except.error.inj hh))

/-- The `access_url` member of an access method, as built literally in the
`objects` handler of `src/main.py`. -/
structure AccessURL where
  url : String
deriving DecidableEq, Repr

/-- One entry of the `access_methods` list built in the `objects` handler
of `src/main.py`. -/
structure AccessMethod where
  type : String
  access_url : AccessURL
deriving DecidableEq, Repr

/-- One entry of the `contents` list built in the `objects` handler of
`src/main.py`. -/
structure ContentsObject where
  name : String
  id : String
  drs_uri : String
deriving DecidableEq, Repr

/-- Modelled from the spec: `ExampleMetadata` is imported in `src/main.py`
from `fuse.models.Objects`, which is not under the source tree.  Per the
spec, a DrsObject carries `id`, `name`, `access_methods` and `contents`
fields, and every response of this service is a fixed or
trivially-templated literal; the handler constructs `ExampleMetadata()`
with no arguments, so the fields it does not assign keep fixed default
values that cannot depend on the request. -/
structure ExampleMetadata where
  id : String := "example-id"
  name : String := "example-name"
  access_methods : List AccessMethod := []
  contents : List ContentsObject := []
deriving DecidableEq, Repr

/-- Modelled from the spec: `ProviderExampleObject` is imported in
`src/main.py` from `fuse.models.Objects`, which is not under the source
tree.  The POST objects handler constructs it with no arguments and
returns its dict unchanged, so it is a fixed default record independent
of the request. -/
structure ProviderExampleObject where
  id : String := "provider-example-id"
  name : String := "provider-example-name"
deriving DecidableEq, Repr

/-- Modelled from the spec: `Passports` is imported in `src/main.py` from
`fuse.models.Objects`, which is not under the source tree.  Per the spec
a Passport is an opaque bearer credential; the form model carries a list
of such opaque strings, whose internals the core never inspects. -/
structure Passports where
  passports : List String
deriving DecidableEq, Repr

/-- The `type` member of the service-info document. -/
structure ServiceType where
  group : String
  artifact : String
deriving DecidableEq, Repr

/-- Modelled from the spec: `service_info.json` is read from disk by the
`service_info` handler and is not under the source tree.  Per the spec
the document is the static GA4GH service-info self-description with
`type.group = "org.ga4gh"` and `type.artifact = "drs"`. -/
structure ServiceInfoDocument where
  id : String := "com.example.drs"
  description : String := "Serves data according to DRS specification"
  type : ServiceType := { group := "org.ga4gh", artifact := "drs" }
deriving DecidableEq, Repr

/-- The `GET /service-info` handler of `src/main.py`: loads and returns
the static `service_info.json` document. -/
def service_info : Except DrsError ServiceInfoDocument :=
  Except.ok {}

/-- The `GET /objects/<object_id>` handler `objects` of `src/main.py`:
builds an `ExampleMetadata()` record, sets a one-element `access_methods`
list pointing at `"http://localhost:8083/files/" ++ object_id`, sets
`contents` to a fixed two-entry list when `object_id` equals
`"exampleszip.zip"` and to a one-entry list naming `object_id` otherwise,
and returns the record.  The `expand` query parameter is accepted but
never used by the handler body, and no external store is consulted. -/
def objects (object_id : String) (expand : Bool) : Except DrsError ExampleMetadata :=
  let example_object : ExampleMetadata := {}
  let example_object := { example_object with
    access_methods :=
      [{ type := "GET",
         access_url := { url := "http://localhost:8083/files/" ++ object_id } }] }
  let example_object :=
    if ¬(object_id = "exampleszip.zip") then
      { example_object with
        contents :=
          [{ name := object_id, id := object_id,
             drs_uri := "drs://drs.example.org/314159" }] }
    else
      { example_object with
        contents :=
          [{ name := "HPA.csv", id := "HPA.csv",
             drs_uri := "drs://drs.example.org/314159" },
           { name := "TestPhenotypes_3.csv", id := "TestPhenotypes_3.csv",
             drs_uri := "drs://drs.example.org/314159" }] }
  Except.ok example_object

/-- The `POST /objects/<object_id>` handler `post_objects` of
`src/main.py`: constructs a default `ProviderExampleObject()` and returns
its dict.  The `expand` parameter and the posted `passports` are accepted
but never used. -/
def post_objects (object_id : String) (expand : Bool) (passports : Passports) :
    Except DrsError ProviderExampleObject :=
  Except.ok {}

/-- The body returned by the access-URL handlers: the source returns a
dict with a `url` string and a `headers` member that is the single string
`"Authorization: None"` (not a mapping). -/
structure AccessURLResponse where
  url : String
  headers : String
deriving DecidableEq, Repr

/-- The `GET /objects/<object_id>/access/<access_id>` handler
`get_objects` of `src/main.py`: unconditionally returns the dict with
`url = "http://localhost:8083/files/" ++ object_id` and
`headers = "Authorization: None"`.  The `access_id` parameter is accepted
but never used. -/
def get_objects (object_id : String) (access_id : String) :
    Except DrsError AccessURLResponse :=
  Except.ok { url := "http://localhost:8083/files/" ++ object_id,
              headers := "Authorization: None" }

/-- The `POST /objects/<object_id>/access/<access_id>` handler of
`src/main.py` (also named `post_objects` there; renamed here because Lean
forbids duplicate names): unconditionally returns the dict with the fixed
`url = "http://localhost/object.zip"` and
`headers = "Authorization: None"`.  All three parameters are accepted but
never used. -/
def post_objects_access (object_id : String) (access_id : String)
    (passports : Passports) : Except DrsError AccessURLResponse :=
  Except.ok { url := "http://localhost/object.zip",
              headers := "Authorization: None" }

/-- Claim C1, counterexample: the claim says that for a cyclic bundle
graph the `GET /objects/<object_id>` handler returns `CyclicBundleError`;
but the handler consults no object store and never returns any error: at
the concrete request `object_id = "bundle-A"`, `expand = true` the result
is not `CyclicBundleError`. -/
theorem objects_cycle_counterexample :
    objects "bundle-A" true ≠ Except.error DrsError.cyclicBundle := by decide

/-- Claim C1 (amended): for every `object_id` and `expand`, the
`GET /objects/<object_id>` handler terminates and returns a DrsObject
body; it performs no bundle resolution against any store and never
returns `CyclicBundleError`. -/
theorem objects_terminates_never_cyclic_error (object_id : String) (expand : Bool) :
    (∃ o, objects object_id expand = Except.ok o) ∧
    objects object_id expand ≠ Except.error DrsError.cyclicBundle :=
  ⟨⟨_, rfl⟩, by simp [objects]⟩

/-- Claim C2: the claim says the `GET /objects/<object_id>` handler
implements the distinction between `expand = true` (transitive expansion
in depth-first order) and `expand = false` (direct children only); the
handler ignores `expand` entirely, returning the same body for both
values, contradicting its own documentation of the `expand` query
parameter. -/
theorem objects_ignores_expand (object_id : String) (e₁ e₂ : Bool) :
    objects object_id e₁ = objects object_id e₂ := rfl

/-- Claim C3, counterexample: the claim says an `object_id` absent from
the Object Store yields `NotFoundError`; but the handler consults no
store and at the concrete absent id `"no-such-object"` it does not return
`NotFoundError` (it returns a DrsObject body). -/
theorem objects_absent_id_counterexample :
    objects "no-such-object" false ≠ Except.error DrsError.notFound := by decide

/-- Claim C3 (amended): for every `object_id`, absent from any store or
not, the `GET /objects/<object_id>` handler returns a DrsObject body
(HTTP 200) and never returns `NotFoundError`. -/
theorem objects_never_not_found (object_id : String) (expand : Bool) :
    (∃ o, objects object_id expand = Except.ok o) ∧
    objects object_id expand ≠ Except.error DrsError.notFound :=
  ⟨⟨_, rfl⟩, by simp [objects]⟩

/-- Claim C4, counterexample: the claim says an invalid or denied
passport yields `UnauthorizedError` with no object content; at the
concrete passport value `"denied-passport"` both POST handlers return
their object content (HTTP 200) and not `UnauthorizedError`. -/
theorem passport_denied_counterexample :
    post_objects "HPA.csv" false { passports := ["denied-passport"] } =
      Except.ok ({} : ProviderExampleObject) ∧
    post_objects_access "HPA.csv" "a1" { passports := ["denied-passport"] } =
      Except.ok { url := "http://localhost/object.zip",
                  headers := "Authorization: None" } ∧
    post_objects "HPA.csv" false { passports := ["denied-passport"] } ≠
      Except.error DrsError.unauthorized :=
  ⟨rfl, rfl, by decide⟩

/-- Claim C4 (amended): the POST operations accept a passport but never
validate it: for every passport value they return the object body and
never return `UnauthorizedError`; no authorization check occurs before or
after the object is constructed. -/
theorem passports_never_checked (object_id : String) (access_id : String)
    (expand : Bool) (p : Passports) :
    post_objects object_id expand p ≠ Except.error DrsError.unauthorized ∧
    (∃ o, post_objects object_id expand p = Except.ok o) ∧
    post_objects_access object_id access_id p ≠ Except.error DrsError.unauthorized ∧
    (∃ r, post_objects_access object_id access_id p = Except.ok r) :=
  ⟨by simp [post_objects], ⟨_, rfl⟩, by simp [post_objects_access], ⟨_, rfl⟩⟩

/-- Claim C5, counterexample: the claim says the returned DrsObject has
`id` equal to the requested `object_id`; but the handler never assigns
`id`, so the two distinct concrete requests `"HPA.csv"` and
`"exampleszip.zip"` receive the same `id` value and cannot both be
answered with their own id. -/
theorem returned_id_counterexample :
    ¬((objects "HPA.csv" false).map ExampleMetadata.id = Except.ok "HPA.csv" ∧
      (objects "exampleszip.zip" false).map ExampleMetadata.id =
        Except.ok "exampleszip.zip") := by
  rintro ⟨h1, h2⟩
  have key : (objects "HPA.csv" false).map ExampleMetadata.id =
      (objects "exampleszip.zip" false).map ExampleMetadata.id := rfl
  rw [h1, h2] at key
  exact absurd (Except.ok.inj key) (by decide)

/-- Claim C5 (amended): the `id` field of the body returned by
`GET /objects/<object_id>` is the fixed `ExampleMetadata` default, fully
independent of the requested `object_id` and of `expand`; in particular
it cannot equal the requested id for more than one `object_id`. -/
theorem returned_id_independent_of_request (id₁ id₂ : String) (e₁ e₂ : Bool) :
    (objects id₁ e₁).map ExampleMetadata.id =
      (objects id₂ e₂).map ExampleMetadata.id := by
  by_cases h1 : id₁ = "exampleszip.zip" <;> by_cases h2 : id₂ = "exampleszip.zip" <;>
    simp [objects, h1, h2, Except.map]

/-- Claim C6, counterexample: the claim says an `access_id` matching no
access method of the object yields `NotFoundError`; at the concrete
request with `access_id = "no-such-access-id"` the handler does not
return `NotFoundError` (it succeeds unconditionally). -/
theorem access_id_counterexample :
    get_objects "HPA.csv" "no-such-access-id" ≠ Except.error DrsError.notFound := by
  decide

/-- Claim C6 (amended): the `GET /objects/<object_id>/access/<access_id>`
handler ignores `access_id` and always succeeds with the body whose `url`
is `"http://localhost:8083/files/" ++ object_id` (always non-empty) and
whose `headers` member is the single string `"Authorization: None"`
rather than a mapping; it never returns `NotFoundError`. -/
theorem access_url_always_succeeds (object_id : String) (access_id : String) :
    get_objects object_id access_id =
      Except.ok { url := "http://localhost:8083/files/" ++ object_id,
                  headers := "Authorization: None" } ∧
    get_objects object_id access_id ≠ Except.error DrsError.notFound ∧
    0 < ("http://localhost:8083/files/" ++ object_id).length := by
  refine ⟨rfl, by simp [get_objects], ?_⟩
  have h : ("http://localhost:8083/files/" ++ object_id).length =
      "http://localhost:8083/files/".length + object_id.length :=
    String.length_append _ _
  have h28 : "http://localhost:8083/files/".length = 28 := by decide
  omega

/-- Claim C7: the `GET /service-info` handler returns a document whose
`type` field is exactly `group = "org.ga4gh"`, `artifact = "drs"`. -/
theorem service_info_type_is_ga4gh_drs :
    service_info.map ServiceInfoDocument.type =
      Except.ok { group := "org.ga4gh", artifact := "drs" } := rfl

/-- Claim C8, counterexample: the claim says GET and POST variants of the
same path return identical bodies; at the concrete access-path request
`object_id = "exampleszip.zip"`, `access_id = "a1"` the GET handler
returns `url = "http://localhost:8083/files/exampleszip.zip"` while the
POST handler returns the fixed `url = "http://localhost/object.zip"`. -/
theorem get_post_identical_counterexample :
    get_objects "exampleszip.zip" "a1" ≠
      post_objects_access "exampleszip.zip" "a1" { passports := [] } := by
  decide

/-- Claim C8 (amended): the GET and POST variants do not return identical
bodies: on the access path the GET body's `url` embeds `object_id` while
the POST body's `url` is the fixed `"http://localhost/object.zip"`, so
the bodies differ for every request; and on the objects path the GET body
varies with `object_id` while the POST body is one fixed default record
for all requests and passports. -/
theorem get_post_bodies_differ (object_id : String) (access_id : String)
    (e : Bool) (p : Passports) (q : Passports) :
    get_objects object_id access_id ≠ post_objects_access object_id access_id p ∧
    post_objects object_id e p = post_objects "some-other-object" e q ∧
    objects "HPA.csv" false ≠ objects "TestPhenotypes_3.csv" false := by
  refine ⟨?_, rfl, by decide⟩
  intro h
  simp [get_objects, post_objects_access, AccessURLResponse.mk.injEq] at h
  have hlen := congrArg String.length h
  rw [String.length_append] at hlen
  have h28 : "http://localhost:8083/files/".length = 28 := by decide
  have h27 : "http://localhost/object.zip".length = 27 := by decide
  omega

/-- Claim C9: for every request, the `GET /objects/<object_id>` handler
returns a body whose `access_methods` is the one-element list with
`type = "GET"` and `access_url.url = "http://localhost:8083/files/" ++
object_id`, and whose `contents` names exactly `"HPA.csv"` and
`"TestPhenotypes_3.csv"` when `object_id = "exampleszip.zip"` and exactly
one entry whose `name` and `id` both equal `object_id` otherwise. -/
theorem objects_response_shape (object_id : String) (expand : Bool) :
    (objects object_id expand).map ExampleMetadata.access_methods =
      Except.ok [{ type := "GET",
                   access_url := { url := "http://localhost:8083/files/" ++ object_id } }] ∧
    (objects object_id expand).map (fun o => o.contents.map (fun c => (c.name, c.id))) =
      Except.ok (if object_id = "exampleszip.zip"
        then [("HPA.csv", "HPA.csv"), ("TestPhenotypes_3.csv", "TestPhenotypes_3.csv")]
        else [(object_id, object_id)]) := by
  constructor
  · by_cases h : object_id = "exampleszip.zip" <;> simp [objects, h, Except.map]
  · by_cases h : object_id = "exampleszip.zip" <;> simp [objects, h, Except.map]

/-- Claim C10: the body of `GET /objects/<object_id>/access/<access_id>`
is determined by `object_id` alone (independent of `access_id`), and the
bodies of both POST operations are independent of the posted passports
value. -/
theorem bodies_independent_of_access_id_and_passports
    (object_id : String) (a₁ a₂ : String) (e : Bool) (p₁ p₂ : Passports) :
    get_objects object_id a₁ = get_objects object_id a₂ ∧
    post_objects object_id e p₁ = post_objects object_id e p₂ ∧
    post_objects_access object_id a₁ p₁ = post_objects_access object_id a₁ p₂ :=
  ⟨rfl, rfl, rfl⟩

end FuseProviderExample
